import Mathlib

/-!
Shallow embedding of `TestGraphs/MakeConfigs/Moisture.py` (the single
source file of the repository) and proofs about it.

The script is one linear pipeline:
  1. branch on `os.getenv("GITHUB_ACTIONS") == True` to resolve paths;
  2. `pd.read_excel(path/FieldConfigs.xlsx, nrows=45,
       usecols=lambda x: 'Unnamed' not in x, keep_default_na=False)`;
  3. `Configs.set_index('Name', inplace=True)`;
  4. `CSConfigs = Configs.transpose()`;
     `CSConfigs.to_csv(path/FieldConfigs.csv, header=True)`;
  5. `Configs.to_pickle(path/FieldConfigs.pkl)`.

Library semantics (Python `os`, pandas) are embedded from their documented
behaviour; cell values are modelled by the text pandas would print for
them (the integer 10 is the cell "10", a blank cell is the empty string
under `keep_default_na=False`).
-/

/-- Boolean test that character list `n` is an initial segment of `h`;
used to embed Python's substring operator `in`. -/
def listStartsWith : List Char → List Char → Bool
  | [], _ => true
  | _ :: _, [] => false
  | a :: as, b :: bs => a == b && listStartsWith as bs

/-- Boolean test that character list `n` occurs contiguously inside `h`. -/
def listIsInfixOf (n : List Char) : List Char → Bool
  | [] => n.isEmpty
  | b :: bs => listStartsWith n (b :: bs) || listIsInfixOf n bs

/-- Embeds Python's `needle in hay` on strings: `true` iff `needle` occurs
as a contiguous substring of `hay`. -/
def strContains (needle hay : String) : Bool :=
  listIsInfixOf needle.toList hay.toList

/-- Embeds the column filter `lambda x: 'Unnamed' not in x` of line 36:
a column header is kept iff it does not contain the substring "Unnamed". -/
def keepCol (x : String) : Bool :=
  !(strContains "Unnamed" x)

/-- Boolean test that string `p` is an initial segment of `s`. -/
def strStartsWith (p s : String) : Bool :=
  listStartsWith p.toList s.toList

/-- Boolean test that string `p` is a final segment of `s`. -/
def strEndsWith (p s : String) : Bool :=
  listStartsWith p.toList.reverse s.toList.reverse

/-- Splits a character list at every occurrence of `c`; the pieces do not
contain `c`, and adjacent or outer occurrences produce empty pieces. -/
def splitOnChar (c : Char) : List Char → List (List Char)
  | [] => [[]]
  | a :: as =>
      match splitOnChar c as with
      | [] => [[a]]
      | p :: ps => if a == c then [] :: p :: ps else (a :: p) :: ps

/-- Embeds Python's `s.split("\\")` of line 24: split on every backslash
(the separator is a single character, so this is a character split). -/
def pySplitBackslash (s : String) : List String :=
  (splitOnChar (Char.ofNat 92) s.toList).map List.asString

/-- Embeds POSIX `os.path.join` on two components: if the second part is
absolute it wins; otherwise it is appended, inserting "/" unless the first
part is empty or already ends with "/". -/
def osPathJoin2 (a b : String) : String :=
  if strStartsWith "/" b then b
  else if a = "" || strEndsWith "/" a then a ++ b
  else a ++ "/" ++ b

/-- Embeds `os.path.join(a, r1, r2, ...)` by folding `osPathJoin2`. -/
def osPathJoin (a : String) (rest : List String) : String :=
  rest.foldl osPathJoin2 a

/-- Embeds the condition `os.getenv("GITHUB_ACTIONS") == True` of line 19.
`os.getenv` returns the variable's text (`some s`) or `None` (`none`);
Python's `==` between a `str` (or `None`) and the boolean `True` never
holds (no cross-type coercion), so the condition is `false` for every
value of the environment variable. -/
def githubActionsCondition : Option String → Bool
  | none => false
  | some _ => false

/-- The local variables the path-resolution `if`/`else` of lines 19-31 can
bind; `none` means the Python name is left unbound by the branch taken. -/
structure ResolverState where
  root : Option String
  inPath : Option String
  outPath : Option String
  path : Option String
  deriving Repr, DecidableEq

/-- Embeds the `if` branch (lines 20-22): given the text of
`GITHUB_WORKSPACE`, binds `root`, `inPath` and `outPath`; the name `path`
is not assigned in this branch. -/
def ciBranch (workspace : String) : ResolverState :=
  { root := some workspace
    inPath := some (osPathJoin workspace
      ["TestComponents", "TestSets", "Moisture", "Outputs"])
    outPath := some (osPathJoin workspace ["TestGraphs", "Outputs"])
    path := none }

/-- Embeds the accumulation loop of lines 25-30: starting from `acc`,
append each fragment followed by "\\" until a fragment equals
"FieldNBalance", which stops the loop without being appended. -/
def rootLoop (acc : String) : List String → String
  | [] => acc
  | d :: ds => if d = "FieldNBalance" then acc else rootLoop (acc ++ d ++ "\\") ds

/-- Embeds the `else` branch (lines 24-31): split the notebook's absolute
path on "\\", accumulate fragments into `root`, and bind `path` by joining
fixed segments; `inPath` and `outPath` are not assigned in this branch. -/
def nonCiBranch (notebookAbsPath : String) : ResolverState :=
  let rootfrags := pySplitBackslash notebookAbsPath
  let root := rootLoop "" rootfrags
  { root := some root
    inPath := none
    outPath := none
    path := some (osPathJoin root
      ["FieldNBalance", "TestComponents", "TestSets", "Moisture"]) }

/-- Embeds lines 19-31 as a whole: pick the branch by
`githubActionsCondition` applied to the `GITHUB_ACTIONS` text. -/
def resolve (githubActions : Option String) (workspace : String)
    (notebookAbsPath : String) : ResolverState :=
  if githubActionsCondition githubActions then ciBranch workspace
  else nonCiBranch notebookAbsPath

/-- Unhandled Python exceptions the pipeline can raise. -/
inductive PyErr where
  /-- `KeyError` from `set_index` when the named column is absent. -/
  | keyError (col : String)
  /-- `NameError` when a referenced local name was never assigned. -/
  | nameError (name : String)
  deriving Repr, DecidableEq

/-- The input spreadsheet `FieldConfigs.xlsx`: a header row of column
names and data rows of cells, a blank cell being `none`. -/
structure Sheet where
  header : List String
  rows : List (List (Option String))
  deriving Repr, DecidableEq

/-- Embeds a pandas `DataFrame` of textual cells: a row-label axis
(`index`, with optional axis name) and a column-label axis (`cols`, with
optional axis name); `data` is row-major, `data[i][j]` sitting at row
`index[i]` and column `cols[j]`. -/
structure DataFrame where
  indexName : Option String
  index : List String
  colsName : Option String
  cols : List String
  data : List (List String)
  deriving Repr, DecidableEq

/-- Embeds how `read_excel` materialises one cell: a blank cell becomes
the NA sentinel when `keep_default_na` is true, and the empty string when
it is false (the script passes `keep_default_na=False`); a filled cell
keeps its text. -/
def loadCell (keepDefaultNA : Bool) : Option String → String
  | none => if keepDefaultNA then "nan" else ""
  | some s => s

/-- Loads one data row: pair cells with their column headers, keep the
cells of columns accepted by `keepCol`, and materialise each with
`loadCell false`. -/
def loadRow (header : List String) (r : List (Option String)) : List String :=
  (header.zip r).filterMap fun p =>
    if keepCol p.1 then some (loadCell false p.2) else none

/-- Embeds `pd.read_excel(..., nrows=45, usecols=lambda x: 'Unnamed' not
in x, keep_default_na=False)` of lines 33-37: at most 45 data rows are
parsed, columns whose header contains "Unnamed" are dropped, and the
frame gets the default unnamed range index 0,1,2,... -/
def readExcel (sheet : Sheet) : DataFrame :=
  let rows := sheet.rows.take 45
  { indexName := none
    index := (List.range rows.length).map toString
    colsName := none
    cols := sheet.header.filter keepCol
    data := rows.map (loadRow sheet.header) }

/-- Embeds `Configs.set_index('Name', inplace=True)` of line 39: the
named column becomes the new index (its name becoming the index name) and
is removed from the columns; raises `KeyError` when the column is absent. -/
def setIndex (col : String) (df : DataFrame) : Except PyErr DataFrame :=
  match df.cols.findIdx? (· = col) with
  | none => .error (.keyError col)
  | some i =>
      .ok { indexName := some col
            index := df.data.map fun r => r.getD i ""
            colsName := df.colsName
            cols := df.cols.eraseIdx i
            data := df.data.map fun r => r.eraseIdx i }

/-- Embeds `DataFrame.transpose()` of line 41: the two axes are swapped,
labels and axis names included; cell `(i, j)` moves to `(j, i)`. -/
def DataFrame.transpose (df : DataFrame) : DataFrame :=
  { indexName := df.colsName
    index := df.cols
    colsName := df.indexName
    cols := df.index
    data := (List.range df.cols.length).map fun j =>
      df.data.map fun r => r.getD j "" }

/-- Minimal CSV field quoting (csv.QUOTE_MINIMAL, the to_csv default): a
field containing a comma, a double quote or a newline is wrapped in
double quotes with inner quotes doubled; other fields are written as-is,
the empty string becoming an empty field. -/
def csvField (s : String) : String :=
  let cs := s.toList
  if cs.contains ',' || cs.contains '\"' || cs.contains '\n' then
    "\"" ++ (cs.flatMap fun c => if c == '\"' then ['\"', '\"'] else [c]).asString
      ++ "\""
  else s

/-- Embeds `to_csv(..., header=True)` of line 42 as the list of output
lines. For a frame with a flat column axis pandas writes a header line
whose first field is the index's name — the empty field when the index
has no name; the columns' own axis name is not written — followed by the
column labels, then one line per row: the row's index label followed by
its cells. -/
def toCsvLines (df : DataFrame) : List String :=
  (String.intercalate "," ((df.indexName.getD "" :: df.cols).map csvField)) ::
    (df.index.zip df.data).map fun p =>
      String.intercalate "," ((p.1 :: p.2).map csvField)

/-- The opaque on-disk snapshot written by `to_pickle`: it stores the
pickled frame, and `readPickle` recovers it faithfully (pandas pickling
round-trips a frame to an equal frame). -/
structure Pickle where
  payload : DataFrame
  deriving Repr, DecidableEq

/-- Embeds `to_pickle` of line 44: serialise the frame. -/
def toPickle (df : DataFrame) : Pickle := ⟨df⟩

/-- Embeds `pd.read_pickle`: deserialise the snapshot. -/
def readPickle (p : Pickle) : DataFrame := p.payload

/-- Everything a successful run puts on disk, together with the path the
spreadsheet was read from. -/
structure RunOutput where
  xlsxPath : String
  csvPath : String
  csvLines : List String
  pklPath : String
  pklFile : Pickle
  deriving Repr, DecidableEq

/-- The pickled table of a successful run. -/
def RunOutput.pklTable (out : RunOutput) : DataFrame :=
  readPickle out.pklFile

/-- Embeds lines 33-44 given the resolver's bindings: reading the
spreadsheet references the name `path` (a `NameError` if the branch taken
left it unbound), then load, index by "Name" (a `KeyError` aborts the run
before any file is written), transpose for the CSV, and pickle the
indexed — not transposed — table. -/
def runFromState (st : ResolverState) (sheet : Sheet) :
    Except PyErr RunOutput :=
  match st.path with
  | none => .error (.nameError "path")
  | some p =>
      match setIndex "Name" (readExcel sheet) with
      | .error e => .error e
      | .ok configs =>
          .ok { xlsxPath := osPathJoin p ["FieldConfigs.xlsx"]
                csvPath := osPathJoin p ["FieldConfigs.csv"]
                csvLines := toCsvLines configs.transpose
                pklPath := osPathJoin p ["FieldConfigs.pkl"]
                pklFile := toPickle configs }

/-- The whole script: resolve paths from the environment, then run the
pipeline on the spreadsheet found at the resolved directory. -/
def runScript (githubActions : Option String) (workspace : String)
    (notebookAbsPath : String) (sheet : Sheet) : Except PyErr RunOutput :=
  runFromState (resolve githubActions workspace notebookAbsPath) sheet

/-! Concrete inputs used by the witnesses and counterexamples. -/

/-- The spec's scenario spreadsheet: columns ["Name", "Depth"], rows
Name=["A", "B"], Depth=[10, blank]. -/
def scenarioSheet : Sheet :=
  { header := ["Name", "Depth"]
    rows := [[some "A", some "10"], [some "B", none]] }

/-- A concrete local (non-CI) resolver state, from a Windows-style
notebook path whose second fragment is "FieldNBalance". -/
def scenarioState : ResolverState :=
  resolve none "" "C:\\FieldNBalance\\WS2.ipynb"

/-- The scenario spreadsheet indexed by "Name": keys ["A", "B"], one
column "Depth" with values ["10", ""]. -/
def scenarioTable : DataFrame :=
  { indexName := some "Name"
    index := ["A", "B"]
    colsName := none
    cols := ["Depth"]
    data := [["10"], [""]] }

/-- What the script writes when run locally on the scenario spreadsheet. -/
def scenarioOut : RunOutput :=
  { xlsxPath := "C:\\/FieldNBalance/TestComponents/TestSets/Moisture/FieldConfigs.xlsx"
    csvPath := "C:\\/FieldNBalance/TestComponents/TestSets/Moisture/FieldConfigs.csv"
    csvLines := [",A,B", "Depth,10,"]
    pklPath := "C:\\/FieldNBalance/TestComponents/TestSets/Moisture/FieldConfigs.pkl"
    pklFile := toPickle scenarioTable }

/-- A spreadsheet with exactly 45 data rows. -/
def sheet45 : Sheet :=
  { header := ["Name"], rows := List.replicate 45 [some "r"] }

/-- A spreadsheet with 46 data rows. -/
def sheet46 : Sheet :=
  { header := ["Name"], rows := List.replicate 46 [some "r"] }

/-- A spreadsheet lacking the "Name" column. -/
def sheetNoName : Sheet :=
  { header := ["Depth"], rows := [[some "1"]] }

/-- A spreadsheet with an extra column "UnnamedExtra", whose header
contains "Unnamed" as a substring. -/
def unnamedSheet : Sheet :=
  { header := ["Name", "Depth", "UnnamedExtra"]
    rows := [[some "A", some "10", some "z"], [some "B", none, some "w"]] }

/-! Claim theorems. -/

/-- Claim C1, counterexample: on the spec's scenario input the run
succeeds, but the CSV header line is ",A,B", not the claimed "Name,A,B":
pandas `to_csv` writes the index's (absent) name in the corner field and
drops the transposed frame's columns name "Name". -/
theorem claim_C1_counterexample :
    runFromState scenarioState scenarioSheet = Except.ok scenarioOut ∧
    scenarioOut.csvLines = [",A,B", "Depth,10,"] ∧
    scenarioOut.csvLines ≠ ["Name,A,B", "Depth,10,"] :=
  ⟨rfl, rfl, by decide⟩

/-- Claim C1, amended: the CSV writer outputs the transposed table — the
axes are swapped, so the original column headers (minus "Name", which
becomes the columns' axis name) become the row index and the original
"Name" values become the column headers — and on the scenario input the
CSV has header row ",A,B" (the corner field is empty: the transposed
index has no name, and the columns' axis name "Name" is not written) and
one data row "Depth,10," with the blank cell preserved as the empty
string. -/
theorem claim_C1_transposed_csv :
    (∀ df : DataFrame,
      df.transpose.index = df.cols ∧ df.transpose.cols = df.index ∧
      df.transpose.indexName = df.colsName ∧
      df.transpose.colsName = df.indexName) ∧
    runFromState scenarioState scenarioSheet = Except.ok scenarioOut ∧
    scenarioOut.csvLines = [",A,B", "Depth,10,"] :=
  ⟨fun _ => ⟨rfl, rfl, rfl, rfl⟩, rfl, rfl⟩

/-- Claim C2: every successful run pickles the ConfigTable indexed by
"Name" — the result of `set_index` on the loaded table, not the
transposed view — and deserializing that snapshot reproduces exactly that
table. -/
theorem claim_C2_snapshot_roundtrip (st : ResolverState) (sheet : Sheet)
    (out : RunOutput) :
    runFromState st sheet = Except.ok out →
    ∃ t, setIndex "Name" (readExcel sheet) = Except.ok t ∧
      out.pklFile = toPickle t ∧ readPickle out.pklFile = t := by
  intro h
  unfold runFromState at h
  split at h
  · cases h
  · split at h
    · cases h
    · next t ht =>
      cases h
      exact ⟨t, ht, rfl, rfl⟩

/-- Claim C2, witness at the scenario input. -/
theorem claim_C2_snapshot_roundtrip_witness :
    ∃ t, setIndex "Name" (readExcel scenarioSheet) = Except.ok t ∧
      scenarioOut.pklFile = toPickle t ∧
      readPickle scenarioOut.pklFile = t :=
  claim_C2_snapshot_roundtrip scenarioState scenarioSheet scenarioOut rfl

/-- Claim C3: the CI branch is dead code. `os.getenv` yields `None` or
the variable's text, and Python's `==` between those and the boolean
`True` never holds, so for every value of `GITHUB_ACTIONS` — including
the true-like text "true" — the resolver takes the local branch: `inPath`
stays unbound and `path` is bound by the local branch, contradicting the
claim that a true-like text value selects the CI branch. -/
theorem claim_C3_ci_branch_never_taken :
    (∀ v : Option String, githubActionsCondition v = false) ∧
    resolve (some "true") "ws" "C:\\FieldNBalance\\WS2.ipynb" =
      nonCiBranch "C:\\FieldNBalance\\WS2.ipynb" ∧
    (resolve (some "true") "ws" "C:\\FieldNBalance\\WS2.ipynb").inPath
      = none ∧
    (resolve (some "true") "ws" "C:\\FieldNBalance\\WS2.ipynb").path
      = some "C:\\/FieldNBalance/TestComponents/TestSets/Moisture" := by
  refine ⟨fun v => ?_, rfl, rfl, rfl⟩
  cases v <;> rfl

/-- Helper: a `filterMap` guarded by a boolean test is a `filter`
followed by a `map`. -/
theorem filterMapGuard {α β : Type} (p : α → Bool) (f : α → β) :
    ∀ l : List α,
      (l.filterMap fun a => if p a then some (f a) else none) =
        (l.filter p).map f
  | [] => rfl
  | a :: as => by
      cases h : p a <;>
        simp [List.filterMap_cons, List.filter_cons, h, filterMapGuard p f as]

/-- Helper: `findIdx?` with an equality test misses on a list that does
not contain the value. -/
theorem findIdxNoneOfNotMem (a : String) :
    ∀ l : List String, a ∉ l → l.findIdx? (· = a) = none
  | [], _ => rfl
  | x :: xs, h => by
      have hx : ¬(x = a) := fun he => h (he ▸ List.mem_cons_self x xs)
      have hxs := findIdxNoneOfNotMem a xs (fun hm => h (List.mem_cons_of_mem x hm))
      simp [List.findIdx?_cons, hx, hxs]

/-- Helper: folding string append from any accumulator is the
accumulator followed by the join of the list. -/
theorem joinFoldl :
    ∀ (l : List String) (acc : String),
      List.foldl (fun r s => r ++ s) acc l = acc ++ String.join l
  | [], acc => by simp [String.join]
  | s :: l, acc => by
      simp only [String.join, List.foldl_cons]
      rw [joinFoldl l (acc ++ s), joinFoldl l ("" ++ s)]
      simp [String.append_assoc]

/-- Helper: joining a non-empty list of strings starts with its head. -/
theorem joinCons (s : String) (l : List String) :
    String.join (s :: l) = s ++ String.join l := by
  simp only [String.join, List.foldl_cons]
  rw [joinFoldl l ("" ++ s)]
  simp [String.join]

/-- Helper: when no fragment equals "FieldNBalance" the loop of lines
25-30 appends every fragment, backslash-terminated, to the accumulator. -/
theorem rootLoopAppend :
    ∀ (frags : List String) (acc : String), "FieldNBalance" ∉ frags →
      rootLoop acc frags = acc ++ String.join (frags.map fun d => d ++ "\\")
  | [], acc, _ => by simp [rootLoop, String.join]
  | d :: ds, acc, h => by
      have hd : ¬(d = "FieldNBalance") :=
        fun he => h (he ▸ List.mem_cons_self d ds)
      have hds := rootLoopAppend ds (acc ++ d ++ "\\")
        (fun hm => h (List.mem_cons_of_mem d hm))
      rw [List.map_cons, joinCons]
      show rootLoop acc (d :: ds) = _
      rw [rootLoop, if_neg hd, hds]
      simp [String.append_assoc]

/-- Helper: truncating the spreadsheet's rows at 45 does not change the
loaded frame, since the loader itself takes at most 45 rows. -/
theorem readExcelTake (sheet : Sheet) :
    readExcel { sheet with rows := sheet.rows.take 45 } = readExcel sheet := by
  unfold readExcel
  simp [List.take_take]

/-- Claim C4: the loader reads at most 45 data rows; a spreadsheet with
exactly 45 rows is loaded in full (every row appears, processed, in the
frame's data), and the run on any spreadsheet equals the run on that
spreadsheet truncated to its first 45 rows, so a 46th row appears in
neither the CSV output nor the snapshot output. -/
theorem claim_C4_row_limit (st : ResolverState) (sheet : Sheet) :
    (readExcel sheet).data.length ≤ 45 ∧
    (sheet.rows.length = 45 →
      (readExcel sheet).data = sheet.rows.map (loadRow sheet.header)) ∧
    runFromState st sheet =
      runFromState st { sheet with rows := sheet.rows.take 45 } := by
  refine ⟨?_, ?_, ?_⟩
  · have h : (readExcel sheet).data.length = min 45 sheet.rows.length := by
      simp [readExcel]
    omega
  · intro h
    show (sheet.rows.take 45).map (loadRow sheet.header) = _
    rw [List.take_of_length_le (le_of_eq h)]
  · rw [runFromState, runFromState, readExcelTake]

/-- Claim C4, witness: a 45-row spreadsheet loads in full, and a 46-row
spreadsheet's run equals the run on its first 45 rows. -/
theorem claim_C4_row_limit_witness :
    (readExcel sheet45).data = sheet45.rows.map (loadRow sheet45.header) ∧
    runFromState scenarioState sheet46 =
      runFromState scenarioState { sheet46 with rows := sheet46.rows.take 45 } :=
  ⟨(claim_C4_row_limit scenarioState sheet45).2.1 rfl,
   (claim_C4_row_limit scenarioState sheet46).2.2⟩

/-- Claim C5: a column whose header contains the substring "Unnamed" is
excluded from the loaded frame's columns, and on a successful run it is
absent from the pickled snapshot's columns and from the row labels of the
transposed table the CSV serializes (whose lines the run's CSV output
equals). -/
theorem claim_C5_unnamed_dropped (sheet : Sheet) (col : String)
    (st : ResolverState) (out : RunOutput) :
    strContains "Unnamed" col = true →
    col ∉ (readExcel sheet).cols ∧
    (runFromState st sheet = Except.ok out →
      col ∉ out.pklTable.cols ∧ col ∉ out.pklTable.transpose.index ∧
      out.csvLines = toCsvLines out.pklTable.transpose) := by
  intro hcol
  have hkeep : keepCol col = false := by simp [keepCol, hcol]
  have hncols : col ∉ (readExcel sheet).cols := by
    intro hmem
    have h2 := (List.mem_filter.mp hmem).2
    rw [hkeep] at h2
    cases h2
  refine ⟨hncols, ?_⟩
  intro h
  unfold runFromState at h
  split at h
  · cases h
  · split at h
    · cases h
    · next t ht =>
      cases h
      have htcols : col ∉ t.cols := by
        unfold setIndex at ht
        split at ht
        · cases ht
        · next i hi =>
          cases ht
          intro hmem
          exact hncols (List.Sublist.mem hmem (List.eraseIdx_sublist _ i))
      exact ⟨htcols, htcols, rfl⟩

/-- Claim C5, witness: "UnnamedExtra" is dropped from the loaded table
and absent from both outputs of the run on `unnamedSheet`. -/
theorem claim_C5_unnamed_dropped_witness :
    "UnnamedExtra" ∉ (readExcel unnamedSheet).cols ∧
    ("UnnamedExtra" ∉ scenarioOut.pklTable.cols ∧
     "UnnamedExtra" ∉ scenarioOut.pklTable.transpose.index ∧
     scenarioOut.csvLines = toCsvLines scenarioOut.pklTable.transpose) :=
  ⟨(claim_C5_unnamed_dropped unnamedSheet "UnnamedExtra" scenarioState
      scenarioOut (by decide)).1,
   (claim_C5_unnamed_dropped unnamedSheet "UnnamedExtra" scenarioState
      scenarioOut (by decide)).2 rfl⟩

/-- Claim C6: every loaded cell is the raw cell's text, a blank cell
becoming the empty string — not the NA sentinel, which the loader would
substitute only under `keep_default_na=True` — and on the scenario run
the blank Depth cell appears as the empty string in the pickled table
and as an empty trailing field of the CSV data row. -/
theorem claim_C6_blank_cells :
    (∀ (header : List String) (r : List (Option String)),
      loadRow header r =
        ((header.zip r).filter fun p => keepCol p.1).map
          fun p => loadCell false p.2) ∧
    loadCell false none = "" ∧ loadCell true none = "nan" ∧
    csvField "" = "" ∧
    runFromState scenarioState scenarioSheet = Except.ok scenarioOut ∧
    scenarioOut.pklTable.data = [["10"], [""]] ∧
    scenarioOut.csvLines = [",A,B", "Depth,10,"] :=
  ⟨fun header r => filterMapGuard _ _ (header.zip r),
   rfl, rfl, rfl, rfl, rfl, rfl⟩

/-- Claim C7: when the resolver bound a path but the spreadsheet has no
"Name" column, the run aborts at the indexing step with the `KeyError`
raised by `set_index`, yielding no output record — so neither output file
is written. -/
theorem claim_C7_missing_name (st : ResolverState) (sheet : Sheet) :
    st.path.isSome = true → "Name" ∉ sheet.header →
    runFromState st sheet = Except.error (PyErr.keyError "Name") := by
  intro hp hn
  have hfiltered : "Name" ∉ sheet.header.filter keepCol := fun hmem =>
    hn (List.mem_of_mem_filter hmem)
  have hset : setIndex "Name" (readExcel sheet) =
      Except.error (PyErr.keyError "Name") := by
    unfold setIndex
    rw [findIdxNoneOfNotMem "Name" (readExcel sheet).cols hfiltered]
  unfold runFromState
  split
  · next heq =>
      rw [heq] at hp
      simp at hp
  · rw [hset]

/-- Claim C7, witness: the run on a spreadsheet with only a "Depth"
column fails with `KeyError "Name"`. -/
theorem claim_C7_missing_name_witness :
    runFromState scenarioState sheetNoName =
      Except.error (PyErr.keyError "Name") :=
  claim_C7_missing_name scenarioState sheetNoName rfl (by decide)

/-- Claim C8: in the non-CI branch, when no fragment of the notebook's
absolute path equals "FieldNBalance", the resolver raises no error: the
loop accumulates every fragment (each followed by a backslash) into the
root, and execution continues, binding `path` from that accumulated
root. -/
theorem claim_C8_silent_root (nb : String) :
    "FieldNBalance" ∉ pySplitBackslash nb →
    (nonCiBranch nb).root =
      some (String.join ((pySplitBackslash nb).map fun d => d ++ "\\")) ∧
    (nonCiBranch nb).path =
      some (osPathJoin
        (String.join ((pySplitBackslash nb).map fun d => d ++ "\\"))
        ["FieldNBalance", "TestComponents", "TestSets", "Moisture"]) := by
  intro h
  have hr := rootLoopAppend (pySplitBackslash nb) "" h
  rw [String.empty_append] at hr
  constructor
  · show some (rootLoop "" (pySplitBackslash nb)) = _
    rw [hr]
  · show some (osPathJoin (rootLoop "" (pySplitBackslash nb)) _) = _
    rw [hr]

/-- Claim C8, witness: a Linux-style notebook path has no backslash, so
its single fragment is not "FieldNBalance" and the root silently
accumulates the whole path. -/
theorem claim_C8_silent_root_witness :
    (nonCiBranch "/home/runner/work/repo/WS2.ipynb").root =
      some (String.join
        ((pySplitBackslash "/home/runner/work/repo/WS2.ipynb").map
          fun d => d ++ "\\")) ∧
    (nonCiBranch "/home/runner/work/repo/WS2.ipynb").path =
      some (osPathJoin
        (String.join
          ((pySplitBackslash "/home/runner/work/repo/WS2.ipynb").map
            fun d => d ++ "\\"))
        ["FieldNBalance", "TestComponents", "TestSets", "Moisture"]) :=
  claim_C8_silent_root "/home/runner/work/repo/WS2.ipynb" (by decide)

/-- Claim C9: a successful run writes exactly the two files
`<path>/FieldConfigs.csv` and `<path>/FieldConfigs.pkl`, where `<path>`
is the same directory the spreadsheet `<path>/FieldConfigs.xlsx` is read
from (the resolver state's bound `path`); and the run is unaffected by
the value of the CI-branch output directory `outPath`, which no write
uses. -/
theorem claim_C9_only_two_writes (st : ResolverState) (sheet : Sheet)
    (out : RunOutput) (o : Option String) :
    (runFromState st sheet = Except.ok out →
      ∃ p, st.path = some p ∧
        out.xlsxPath = osPathJoin p ["FieldConfigs.xlsx"] ∧
        out.csvPath = osPathJoin p ["FieldConfigs.csv"] ∧
        out.pklPath = osPathJoin p ["FieldConfigs.pkl"]) ∧
    runFromState { st with outPath := o } sheet = runFromState st sheet := by
  constructor
  · intro h
    unfold runFromState at h
    split at h
    · cases h
    · next p hpath =>
      split at h
      · cases h
      · cases h
        exact ⟨p, hpath, rfl, rfl, rfl⟩
  · cases st
    rfl

/-- Claim C9, witness at the scenario run, with an arbitrary `outPath`
value substituted. -/
theorem claim_C9_only_two_writes_witness :
    (∃ p, scenarioState.path = some p ∧
      scenarioOut.xlsxPath = osPathJoin p ["FieldConfigs.xlsx"] ∧
      scenarioOut.csvPath = osPathJoin p ["FieldConfigs.csv"] ∧
      scenarioOut.pklPath = osPathJoin p ["FieldConfigs.pkl"]) ∧
    runFromState { scenarioState with outPath := some "elsewhere" }
      scenarioSheet = runFromState scenarioState scenarioSheet :=
  ⟨(claim_C9_only_two_writes scenarioState scenarioSheet scenarioOut
      (some "elsewhere")).1 rfl,
   (claim_C9_only_two_writes scenarioState scenarioSheet scenarioOut
      (some "elsewhere")).2⟩

/-- Claim C10: the CI branch binds `root`, `inPath` and `outPath` but
leaves `path` unbound, and running the pipeline from that state fails
with the `NameError` for `path` at the load step, before the spreadsheet
is read and before anything is written. -/
theorem claim_C10_ci_unbound_path (ws : String) (sheet : Sheet) :
    (ciBranch ws).root = some ws ∧
    (ciBranch ws).inPath = some (osPathJoin ws
      ["TestComponents", "TestSets", "Moisture", "Outputs"]) ∧
    (ciBranch ws).outPath = some (osPathJoin ws ["TestGraphs", "Outputs"]) ∧
    (ciBranch ws).path = none ∧
    runFromState (ciBranch ws) sheet = Except.error (PyErr.nameError "path") :=
  ⟨rfl, rfl, rfl, rfl, rfl⟩
